import Mathlib

/-!
Verification development for the kt_bbg repository (`src/kt_bbg.py`), a thin
wrapper class `BBG` around a Bloomberg terminal client plus two free helper
functions.  The definitions below are a shallow embedding of the Python code:

* Python `float` arithmetic on tenors and rates is modelled over `ℚ`
  (the spec states the conversion factors as exact ratios);
* Python exceptions are modelled by the `PyError` type and fallible
  functions return `Except PyError _`;
* the external terminal object `self.dm` (the `tia` package), the `pandas`
  DataFrame machinery, `datetime.strptime` and `scipy` are out-of-scope
  collaborators: they enter the model as explicit function parameters or as
  recorded invocations, never as reimplemented internals.
-/

set_option autoImplicit false

/-- Python exception values that the modelled code can raise.  Each
constructor corresponds to a concrete raise site or built-in failure mode of
`src/kt_bbg.py`. -/
inductive PyError where
  /-- Python `ValueError` (failed tuple unpacking, `int()` on a non-integer
  literal, `min()` of an empty sequence, scipy input validation). -/
  | valueError (msg : String)
  /-- Python `TypeError` (the explicit raises in `get_option_fields` and
  `convert_bbg_tenor_tag`, `float()` of a multi-element series). -/
  | typeError (msg : String)
  /-- Python `NameError` (use of the unbound `str_curve` in `get_ois`). -/
  | nameError (msg : String)
  /-- Python `KeyError` (column selection with an unknown label). -/
  | keyError (msg : String)
  /-- Python `IndexError` (indexing an empty list). -/
  | indexError (msg : String)
  /-- Python `IOError` (the explicit raises in `insert_year_into_ticker`). -/
  | ioError (msg : String)
deriving DecidableEq, Repr

instance {ε α : Type} [DecidableEq ε] [DecidableEq α] : DecidableEq (Except ε α) := fun x y =>
  match x, y with
  | .error e, .error f =>
    if h : e = f then .isTrue (by rw [h]) else .isFalse (by intro hc; cases hc; exact h rfl)
  | .ok a, .ok b =>
    if h : a = b then .isTrue (by rw [h]) else .isFalse (by intro hc; cases hc; exact h rfl)
  | .error _, .ok _ => .isFalse (by intro hc; cases hc)
  | .ok _, .error _ => .isFalse (by intro hc; cases hc)

/-! ## `split_letters_numbers` (src/kt_bbg.py lines 214-218)

Python: `ret = re.split(r'(\d*\.\d+|\d+)', str_in); if '' in ret: ret.remove('')`.

The regex alternation `\d*\.\d+|\d+` can only start matching at a digit or at
a dot followed by a digit; because `\d*` is a maximal digit run whose
follower is checked to be `.`, the leftmost match starting at a given
position is: the maximal digit run, optionally extended by a dot and a
further maximal digit run when the dot immediately follows.  `matchNumAt`
computes that match at the head of the character list. -/

/-- The regex match `(\d*\.\d+|\d+)` anchored at the start of `cs`: returns
the matched characters and the remainder, or `none` when no match starts at
position 0. -/
def matchNumAt (cs : List Char) : Option (List Char × List Char) :=
  let d1 := cs.takeWhile Char.isDigit
  let r1 := cs.dropWhile Char.isDigit
  match r1 with
  | c :: r2 =>
    if c = '.' then
      let d2 := r2.takeWhile Char.isDigit
      if d2 = [] then
        if d1 = [] then none else some (d1, r1)
      else
        some (d1 ++ '.' :: d2, r2.dropWhile Char.isDigit)
    else
      if d1 = [] then none else some (d1, r1)
  | [] => if d1 = [] then none else some (d1, r1)

/-- The scanning loop of `re.split` with one capturing group: unmatched text
alternates with matches.  `fuel ≥ cs.length` suffices since every step
consumes at least one character; `split_letters_numbers` always supplies
exactly `cs.length`. -/
def splitNumsAux : Nat → List Char → List Char → List (List Char)
  | _, [], acc => [acc.reverse]
  | 0, _ :: _, acc => [acc.reverse]
  | fuel + 1, c :: cs, acc =>
    match matchNumAt (c :: cs) with
    | some (m, rest) => acc.reverse :: m :: splitNumsAux fuel rest []
    | none => splitNumsAux fuel cs (c :: acc)

/-- Python `list.remove('')`: delete the first empty element, if any. -/
def removeFirstEmpty : List (List Char) → List (List Char)
  | [] => []
  | x :: xs => if x = [] then xs else x :: removeFirstEmpty xs

/-- `split_letters_numbers` at the character-list level. -/
def splitLNChars (cs : List Char) : List (List Char) :=
  removeFirstEmpty (splitNumsAux cs.length cs [])

/-- `split_letters_numbers(str_in)` (src/kt_bbg.py lines 214-218). -/
def split_letters_numbers (str_in : String) : List String :=
  (splitLNChars str_in.data).map String.mk

/-! ## `BBG.convert_bbg_tenor_tag` (src/kt_bbg.py lines 145-156) -/

/-- Decimal value of a digit run (the numeric magnitude of the run). -/
def digitsVal (ds : List Char) : Nat :=
  ds.foldl (fun a c => 10 * a + (c.toNat - 48)) 0

/-- Python `int(s)` restricted to the strings reachable here: the argument is
always a regex match of `\d*\.\d+|\d+`, i.e. a plain digit run (accepted)
or a decimal containing `.` (rejected with `ValueError`).  Signs, surrounding
whitespace and non-ASCII digits cannot occur in those inputs and are not
modelled. -/
def pyInt (cs : List Char) : Except PyError Int :=
  if cs ≠ [] ∧ cs.all Char.isDigit then .ok (digitsVal cs : Int)
  else .error (.valueError "invalid literal for int() with base 10")

/-- `BBG.convert_bbg_tenor_tag(str_tag)`: unpack the split into exactly
`(num, letter)` (a list of any other length raises `ValueError`), cast the
magnitude with `int()`, then dispatch on the lower-cased unit letter;
an unrecognized letter raises
`TypeError('cannot find appropriate letter for tenor')`. -/
def convert_bbg_tenor_tag (str_tag : String) : Except PyError ℚ :=
  match splitLNChars str_tag.data with
  | [num, letter] =>
    match pyInt num with
    | .error e => .error e
    | .ok n =>
      let l := letter.map Char.toLower
      if l = ['d'] then .ok ((n : ℚ) * (1 / 365))
      else if l = ['w'] then .ok ((n : ℚ) * (1 / 52))
      else if l = ['m'] then .ok ((n : ℚ) * (1 / 12))
      else if l = ['y'] then .ok ((n : ℚ) * 1)
      else .error (.typeError "cannot find appropriate letter for tenor")
  | _ => .error (.valueError "values to unpack do not match")

/-- The unit conversion table of the spec, keyed by the lower-cased unit
letter: D→1/365, W→1/52, M→1/12, Y→1. -/
def unitFactor (c : Char) : ℚ :=
  if c = 'd' then 1 / 365
  else if c = 'w' then 1 / 52
  else if c = 'm' then 1 / 12
  else if c = 'y' then 1
  else 0

/-! ## Lemmas about the tenor split -/

lemma takeWhile_dropWhile_all_append (p : Char → Bool) (l : List Char) (x : Char) (r : List Char)
    (hl : l.all p = true) (hx : p x = false) :
    (l ++ x :: r).takeWhile p = l ∧ (l ++ x :: r).dropWhile p = x :: r := by
  induction l with
  | nil => simp [List.takeWhile_cons, List.dropWhile_cons, hx]
  | cons a t ih =>
    simp only [List.all_cons, Bool.and_eq_true] at hl
    obtain ⟨ha, ht⟩ := hl
    obtain ⟨ih1, ih2⟩ := ih ht
    simp [List.takeWhile_cons, List.dropWhile_cons, ha, ih1, ih2]

lemma matchNumAt_digits_append (ds : List Char) (u : Char)
    (hne : ds ≠ []) (hdig : ds.all Char.isDigit = true)
    (hu : u.isDigit = false) (hdot : u ≠ '.') :
    matchNumAt (ds ++ [u]) = some (ds, [u]) := by
  obtain ⟨tw, dw⟩ := takeWhile_dropWhile_all_append Char.isDigit ds u [] hdig hu
  unfold matchNumAt
  rw [tw, dw]
  simp [hdot, hne]

lemma matchNumAt_none_single (u : Char) (hu : u.isDigit = false) (hdot : u ≠ '.') :
    matchNumAt [u] = none := by
  unfold matchNumAt
  simp [List.takeWhile_cons, List.dropWhile_cons, hu, hdot]

/-- A nonempty digit run followed by a single unit character splits into
`["", digits, unit]`, and the leading empty string is then removed. -/
lemma splitLNChars_digits_unit (ds : List Char) (u : Char)
    (hne : ds ≠ []) (hdig : ds.all Char.isDigit = true)
    (hu : u.isDigit = false) (hdot : u ≠ '.') :
    splitLNChars (ds ++ [u]) = [ds, [u]] := by
  obtain ⟨d, t, rfl⟩ : ∃ d t, ds = d :: t := by
    cases ds with
    | nil => exact absurd rfl hne
    | cons d t => exact ⟨d, t, rfl⟩
  have hlen : (d :: t ++ [u]).length = t.length + 1 + 1 := by simp
  have hm := matchNumAt_digits_append (d :: t) u hne hdig hu hdot
  have hm2 := matchNumAt_none_single u hu hdot
  unfold splitLNChars
  rw [hlen, List.cons_append]
  rw [List.cons_append] at hm
  have step1 : splitNumsAux (t.length + 1 + 1) (d :: (t ++ [u])) []
      = [] :: (d :: t) :: splitNumsAux (t.length + 1) [u] [] := by
    simp [splitNumsAux, hm]
  have step2 : splitNumsAux (t.length + 1) [u] [] = [[u]] := by
    simp [splitNumsAux, hm2]
  rw [step1, step2]
  simp [removeFirstEmpty]

lemma pyInt_digits (ds : List Char) (hne : ds ≠ []) (hdig : ds.all Char.isDigit = true) :
    pyInt ds = .ok (digitsVal ds : Int) := by
  simp [pyInt, hne, hdig]

/-! ## Claim C1 -/

/-- C1, counterexample.  The claim includes decimal magnitudes ("2.5M" yields
2.5/12), but `convert_bbg_tenor_tag` casts the matched magnitude with
`int()`, and `int('2.5')` raises `ValueError`, so `"2.5M"` fails instead of
returning a rate. -/
theorem convert_bbg_tenor_tag_decimal_counterexample :
    convert_bbg_tenor_tag "2.5M"
      = .error (.valueError "invalid literal for int() with base 10") := by
  decide

/-- C1, amended.  For every tenor label made of a nonempty run of digits
followed by one unit letter in {D,W,M,Y} (either case), parsing the label and
converting returns the integer magnitude times the unit factor: D gives
1/365, W gives 1/52, M gives 1/12, Y gives 1.  (Decimal magnitudes, which the
original claim also covered, instead raise `ValueError` from the `int()`
cast — see the counterexample.) -/
theorem convert_bbg_tenor_tag_integer_magnitude (ds : List Char) (u : Char)
    (hne : ds ≠ []) (hdig : ds.all Char.isDigit = true)
    (hu : u ∈ (['d', 'D', 'w', 'W', 'm', 'M', 'y', 'Y'] : List Char)) :
    convert_bbg_tenor_tag (String.mk (ds ++ [u]))
      = .ok ((digitsVal ds : ℚ) * unitFactor u.toLower) := by
  have hud : u.isDigit = false := by fin_cases hu <;> decide
  have hdot : u ≠ '.' := by fin_cases hu <;> decide
  have hs := splitLNChars_digits_unit ds u hne hdig hud hdot
  have hp := pyInt_digits ds hne hdig
  unfold convert_bbg_tenor_tag
  rw [show (String.mk (ds ++ [u])).data = ds ++ [u] from rfl, hs]
  simp only [hp]
  fin_cases hu <;> simp +decide [unitFactor]

/-- C1, witness: `"3M"` parses to the documented ratio 3·(1/12) = 0.25. -/
theorem convert_bbg_tenor_tag_integer_magnitude_witness :
    convert_bbg_tenor_tag "3M" = .ok (1 / 4 : ℚ) := by
  have h := convert_bbg_tenor_tag_integer_magnitude ['3'] 'M'
    (by decide) (by decide) (by decide)
  rw [show ("3M" : String) = String.mk (['3'] ++ ['M']) from rfl, h]
  have h2 : unitFactor 'M'.toLower = 1 / 12 := rfl
  have h3 : digitsVal ['3'] = 3 := by decide
  rw [h2, h3]
  norm_num

/-! ## Claim C3 -/

/-- C3.  Parsing `"abc"` (no numeric run), `"5"` (no trailing unit letter)
and `"Q"` (no numeric run) each fails.  The spec labels all three failures
`MalformedTenorError`; in the source, `"abc"` and `"Q"` raise `ValueError`
from unpacking the split into `(num, letter)`, and `"5"` raises `TypeError`
from the unit-letter dispatch. -/
theorem convert_bbg_tenor_tag_malformed :
    convert_bbg_tenor_tag "abc" = .error (.valueError "values to unpack do not match")
      ∧ convert_bbg_tenor_tag "5"
          = .error (.typeError "cannot find appropriate letter for tenor")
      ∧ convert_bbg_tenor_tag "Q"
          = .error (.valueError "values to unpack do not match") := by
  refine ⟨by decide, by decide, by decide⟩

/-! ## `BBG.get_ois` (src/kt_bbg.py lines 167-195) and claims C2, C5, C6 -/

/-- Python `str.lower()` restricted to ASCII, which is all the wrapped call
sites pass. -/
def pyLower (s : String) : String := String.mk (s.data.map Char.toLower)

/-- One row of the `curve_tenor_rates` table returned by the provider for an
OIS curve, after the column rename on lines 182-183 of `get_ois`: the raw
Bloomberg tenor tag plus the bid/mid/ask yields. -/
structure OisRow where
  tenorTag : String
  bid : ℚ
  mid : ℚ
  ask : ℚ

/-- A curve row after line 186 replaced the tenor tag by its value in
fractional years. -/
structure OisPoint where
  tenor : ℚ
  bid : ℚ
  mid : ℚ
  ask : ℚ
deriving DecidableEq

/-- Column selection `row[num_side]` after the rename: an unknown column
label raises `KeyError`. -/
def pointSide (p : OisPoint) (num_side : String) : Except PyError ℚ :=
  if num_side = "bid" then .ok p.bid
  else if num_side = "mid" then .ok p.mid
  else if num_side = "ask" then .ok p.ask
  else .error (.keyError num_side)

/-- `list(frame[num_side])`: the selected column of every row; an unknown
label raises `KeyError`. -/
def seqSides : List OisPoint → String → Except PyError (List ℚ)
  | [], _ => .ok []
  | p :: ps, s =>
    match pointSide p s, seqSides ps s with
    | .error e, _ => .error e
    | .ok _, .error e => .error e
    | .ok v, .ok vs => .ok (v :: vs)

/-- Python `min(xs)`: `ValueError` on an empty sequence, otherwise the fold
that keeps the current value unless a strictly smaller one appears. -/
def pyMin : List ℚ → Except PyError ℚ
  | [] => .error (.valueError "min() arg is an empty sequence")
  | x :: xs => .ok (xs.foldl (fun a b => if b < a then b else a) x)

/-- Result of the interpolation section of `get_ois` (lines 189-194).
`flat r` is the short-end branch: the stored rate is returned without any
numerical interpolation.  `cubic xs ys t` records the invocation
`scipy.interpolate.interp1d(xs, ys, kind='cubic')(t)`: scipy is an external
collaborator, so the model records the call instead of re-implementing the
spline evaluation. -/
inductive OisRate where
  | flat (rate : ℚ)
  | cubic (tenors : List ℚ) (rates : List ℚ) (tgt : ℚ)
deriving DecidableEq

/-- Lines 189-194 of `BBG.get_ois`: if the target is below the minimum
tenor, filter the rows at the minimum tenor, select the side column and
apply `float()` (which needs exactly one element); otherwise build the two
column lists and hand them to scipy, whose `interp1d` constructor validates
that at least 4 = (cubic order + 1) support points are present before any
evaluation. -/
def ois_interp (ret_curve : List OisPoint) (num_side : String) (tgt_tenor : ℚ) :
    Except PyError OisRate :=
  match pyMin (ret_curve.map OisPoint.tenor) with
  | .error e => .error e
  | .ok m =>
    if tgt_tenor < m then
      match seqSides (ret_curve.filter fun q => decide (q.tenor = m)) num_side with
      | .error e => .error e
      | .ok vs =>
        match vs with
        | [v] => .ok (.flat v)
        | _ => .error (.typeError "cannot convert the series to float")
    else
      match seqSides ret_curve num_side with
      | .error e => .error e
      | .ok vs =>
        if ret_curve.length < 4 then
          .error (.valueError "x and y arrays must have at least 4 entries")
        else .ok (.cubic (ret_curve.map OisPoint.tenor) vs tgt_tenor)

/-- Lines 172-175 of `BBG.get_ois`: the currency dispatch.  There is no
`else` branch, so any other currency leaves `str_curve` unbound. -/
def ois_curve_ticker (str_currency : String) : Option String :=
  if pyLower str_currency = "usd" then some "YCSW0042 Index"
  else if pyLower str_currency = "eur" then some "YCSW0133 Index"
  else if pyLower str_currency = "gbp" then some "YCSW0141 Index"
  else if pyLower str_currency = "cad" then some "YCSW0147 Index"
  else none

/-- Line 186 of `BBG.get_ois`: the per-row tenor-tag conversion. -/
def convertRow (r : OisRow) : Except PyError OisPoint :=
  match convert_bbg_tenor_tag r.tenorTag with
  | .error e => .error e
  | .ok q => .ok ⟨q, r.bid, r.mid, r.ask⟩

/-- The list comprehension on line 186; the first raising element aborts the
whole comprehension. -/
def convertCurve : List OisRow → Except PyError (List OisPoint)
  | [] => .ok []
  | r :: rs =>
    match convertRow r, convertCurve rs with
    | .error e, _ => .error e
    | .ok _, .error e => .error e
    | .ok p, .ok ps => .ok (p :: ps)

/-- `BBG.get_ois(date, tgt_tenor, str_currency, num_side)` (lines 167-195).
The `provider` parameter stands for
`self.dm.get_reference_data(str_curve, 'curve_tenor_rates', curve_date=date)`
followed by the frame extraction and the column rename (glue over the
external client); the date is modelled already in string form, since line
177 only reformats non-string dates.  A currency outside the four handled
ones leaves `str_curve` unbound, so its use on line 180 raises `NameError`
before any provider call. -/
def get_ois (provider : String → String → List OisRow) (date : String)
    (tgt_tenor : ℚ) (str_currency num_side : String) :
    Except PyError (OisRate × List OisPoint) :=
  match ois_curve_ticker str_currency with
  | none => .error (.nameError "name str_curve is not defined")
  | some str_curve =>
    match convertCurve (provider str_curve date) with
    | .error e => .error e
    | .ok ret_curve =>
      match ois_interp ret_curve num_side tgt_tenor with
      | .error e => .error e
      | .ok rate => .ok (rate, ret_curve)

/-- The `min` fold is a lower bound of the initial value and all elements. -/
lemma pyMinFold_le (xs : List ℚ) :
    ∀ x y, y ∈ x :: xs → xs.foldl (fun a b => if b < a then b else a) x ≤ y := by
  induction xs with
  | nil =>
    intro x y hy
    simp at hy
    simp [hy]
  | cons b t ih =>
    intro x y hy
    have hx' : (if b < x then b else x) ≤ x := by split <;> simp_all [le_of_lt]
    have hb' : (if b < x then b else x) ≤ b := by split <;> simp_all [le_of_not_lt]
    rcases List.mem_cons.mp hy with rfl | hy2
    · exact le_trans (ih _ _ (List.mem_cons_self _ _)) hx'
    · rcases List.mem_cons.mp hy2 with rfl | hy3
      · exact le_trans (ih _ _ (List.mem_cons_self _ _)) hb'
      · exact ih _ _ (List.mem_cons_of_mem _ hy3)

/-- The `min` fold returns the initial value or one of the elements. -/
lemma pyMinFold_mem (xs : List ℚ) :
    ∀ x, xs.foldl (fun a b => if b < a then b else a) x ∈ x :: xs := by
  induction xs with
  | nil => intro x; simp
  | cons b t ih =>
    intro x
    have := ih (if b < x then b else x)
    rcases List.mem_cons.mp this with h | h
    · rw [List.foldl_cons, h]
      split <;> simp
    · simp [List.foldl_cons]
      right; right
      exact h

/-- `min` of the tenor column is the tenor of any minimal point. -/
lemma pyMin_eq_of_min (curve : List OisPoint) (p : OisPoint)
    (hmem : p ∈ curve) (hmin : ∀ q ∈ curve, p.tenor ≤ q.tenor) :
    pyMin (curve.map OisPoint.tenor) = .ok p.tenor := by
  have hpt : p.tenor ∈ curve.map OisPoint.tenor := List.mem_map_of_mem _ hmem
  cases hl : curve.map OisPoint.tenor with
  | nil => rw [hl] at hpt; cases hpt
  | cons x xs =>
    rw [hl] at hpt
    have hmm := pyMinFold_mem xs x
    have hle := pyMinFold_le xs x p.tenor hpt
    obtain ⟨q, hq, hqt⟩ : ∃ q ∈ curve, q.tenor = xs.foldl (fun a b => if b < a then b else a) x := by
      have : xs.foldl (fun a b => if b < a then b else a) x ∈ curve.map OisPoint.tenor := by
        rw [hl]; exact hmm
      obtain ⟨q, hq, hqt⟩ := List.mem_map.mp this
      exact ⟨q, hq, hqt⟩
    have hge : p.tenor ≤ xs.foldl (fun a b => if b < a then b else a) x := hqt ▸ hmin q hq
    simp [pyMin, le_antisymm hle hge]

/-- With pairwise-distinct tenors, filtering on the tenor of a member
selects exactly that member. -/
lemma filter_tenor_nodup (curve : List OisPoint) (p : OisPoint)
    (hnd : (curve.map OisPoint.tenor).Nodup) (hmem : p ∈ curve) :
    curve.filter (fun q => decide (q.tenor = p.tenor)) = [p] := by
  induction curve with
  | nil => cases hmem
  | cons a t ih =>
    rw [List.map_cons, List.nodup_cons] at hnd
    obtain ⟨ha, ht⟩ := hnd
    rcases List.mem_cons.mp hmem with rfl | hp
    · rw [List.filter_cons_of_pos (by simp)]
      have : t.filter (fun q => decide (q.tenor = p.tenor)) = [] := by
        rw [List.filter_eq_nil_iff]
        intro q hq
        simp only [decide_eq_true_eq]
        intro hqt
        exact ha (hqt ▸ List.mem_map_of_mem _ hq)
      rw [this]
    · have hne : a.tenor ≠ p.tenor := by
        intro he
        exact ha (he ▸ List.mem_map_of_mem _ hp)
      rw [List.filter_cons_of_neg (by simpa using hne)]
      exact ih ht hp

/-- C2.  For every curve with at least one point (a member `p` minimal in
tenor), distinct tenors (the data model keys curves uniquely by tenor), and
every target strictly below the minimum tenor, the OIS interpolation returns
exactly the rate stored at the minimum tenor, as a `flat` result: no scipy
interpolation call is recorded. -/
theorem get_ois_flat_extrapolation (curve : List OisPoint) (num_side : String)
    (tgt : ℚ) (p : OisPoint) (r : ℚ)
    (hmem : p ∈ curve)
    (hmin : ∀ q ∈ curve, p.tenor ≤ q.tenor)
    (hnd : (curve.map OisPoint.tenor).Nodup)
    (hside : pointSide p num_side = .ok r)
    (hlt : tgt < p.tenor) :
    ois_interp curve num_side tgt = .ok (.flat r) := by
  have hm := pyMin_eq_of_min curve p hmem hmin
  have hf := filter_tenor_nodup curve p hnd hmem
  unfold ois_interp
  simp only [hm, if_pos hlt, hf]
  simp [seqSides, hside]

/-- C2, witness: on the four-point curve with mid rates 11,21,31,61 and
target 0 (below the minimum tenor 1), the result is exactly `flat 11`. -/
theorem get_ois_flat_extrapolation_witness :
    ois_interp [⟨1, 10, 11, 12⟩, ⟨2, 20, 21, 22⟩, ⟨3, 30, 31, 32⟩, ⟨6, 60, 61, 62⟩] "mid" 0
      = .ok (.flat 11) := by
  exact get_ois_flat_extrapolation _ "mid" 0 ⟨1, 10, 11, 12⟩ 11
    (by decide) (by decide) (by decide) (by decide) (by decide)

/-- A valid side label always selects a value. -/
lemma pointSide_ok (p : OisPoint) (s : String)
    (hs : s = "bid" ∨ s = "mid" ∨ s = "ask") : ∃ v, pointSide p s = .ok v := by
  rcases hs with h | h | h <;> subst h
  · exact ⟨p.bid, rfl⟩
  · exact ⟨p.mid, rfl⟩
  · exact ⟨p.ask, rfl⟩

/-- A valid side label selects a whole column without error. -/
lemma seqSides_ok (curve : List OisPoint) (s : String)
    (hs : s = "bid" ∨ s = "mid" ∨ s = "ask") : ∃ vs, seqSides curve s = .ok vs := by
  induction curve with
  | nil => exact ⟨[], rfl⟩
  | cons p t ih =>
    obtain ⟨v, hv⟩ := pointSide_ok p s hs
    obtain ⟨vs, hvs⟩ := ih
    exact ⟨v :: vs, by simp [seqSides, hv, hvs]⟩

/-- C6.  For every curve with fewer than 4 points and every target tenor not
below the minimum tenor present, the interpolation fails: the branch hands
the columns to scipy, whose cubic `interp1d` requires at least 4 support
points.  (The spec names this failure `InsufficientPointsError`; the source
has no such class and surfaces scipy's low-level `ValueError`, which is what
the model raises.) -/
theorem get_ois_insufficient_points (curve : List OisPoint) (num_side : String)
    (tgt m : ℚ)
    (hmin : pyMin (curve.map OisPoint.tenor) = .ok m)
    (hge : m ≤ tgt)
    (hlen : curve.length < 4)
    (hside : num_side = "bid" ∨ num_side = "mid" ∨ num_side = "ask") :
    ois_interp curve num_side tgt
      = .error (.valueError "x and y arrays must have at least 4 entries") := by
  obtain ⟨vs, hvs⟩ := seqSides_ok curve num_side hside
  unfold ois_interp
  simp only [hmin, if_neg (not_lt.mpr hge), hvs, if_pos hlen]

/-- C6, witness: a three-point curve with target 2 (not below minimum tenor
1) fails with the scipy validation error. -/
theorem get_ois_insufficient_points_witness :
    ois_interp [⟨1, 10, 11, 12⟩, ⟨2, 20, 21, 22⟩, ⟨3, 30, 31, 32⟩] "mid" 2
      = .error (.valueError "x and y arrays must have at least 4 entries") := by
  exact get_ois_insufficient_points _ "mid" 2 1 (by decide) (by decide) (by decide)
    (Or.inr (Or.inl rfl))

/-- C5.  For every currency whose lower-casing is none of usd, eur, gbp,
cad, `get_ois` fails with the undefined-variable error (`NameError` on
`str_curve`), whatever the provider would have answered: no result is
returned. -/
theorem get_ois_unknown_currency (provider : String → String → List OisRow)
    (date : String) (tgt : ℚ) (str_currency num_side : String)
    (h1 : pyLower str_currency ≠ "usd") (h2 : pyLower str_currency ≠ "eur")
    (h3 : pyLower str_currency ≠ "gbp") (h4 : pyLower str_currency ≠ "cad") :
    get_ois provider date tgt str_currency num_side
      = .error (.nameError "name str_curve is not defined") := by
  unfold get_ois ois_curve_ticker
  simp [h1, h2, h3, h4]

/-- C5, witness: currency "jpy" fails with the `NameError`. -/
theorem get_ois_unknown_currency_witness :
    get_ois (fun _ _ => []) "20190101" 0 "jpy" "mid"
      = .error (.nameError "name str_curve is not defined") := by
  exact get_ois_unknown_currency _ "20190101" 0 "jpy" "mid"
    (by decide) (by decide) (by decide) (by decide)

/-! ## `BBG.get_option_fields`, `BBG.get_general_field_single` (claims C4, C7) -/

/-- Python `str.split()` with no argument: split on whitespace runs,
discarding empty pieces. -/
def pySplitWS (s : String) : List String :=
  ((s.data.splitOnP Char.isWhitespace).filter (fun l => !l.isEmpty)).map String.mk

/-- Python `x.replace(' COMB', '')`: remove every left-to-right,
non-overlapping occurrence of the 5-character token. -/
def stripCombChars : List Char → List Char
  | ' ' :: 'C' :: 'O' :: 'M' :: 'B' :: rest => stripCombChars rest
  | c :: rest => c :: stripCombChars rest
  | [] => []

/-- `x.replace(' COMB', '')` on strings (src/kt_bbg.py lines 110 and 125). -/
def pyStripComb (s : String) : String := String.mk (stripCombChars s.data)

/-- The fields of the provider response to `get_option_fields` that the
claims are about: the `underlying_security_des` column (renamed
`underlying_ticker`) and, when the comdty field set was requested, the
optional `current_contract_month_yr` column (renamed `cont_month_year`).
The remaining requested columns are renamed pass-through glue that no claim
mentions. -/
structure OptFieldsResp where
  underlying_ticker : String
  cont_month_year : Option String

/-- The corresponding fields of the frame `get_option_fields` returns. -/
structure OptFieldsResult where
  underlying_ticker : String
  month : Option Nat
  year : Option Nat
deriving DecidableEq

/-- `BBG.get_option_fields(str_ticker)` (src/kt_bbg.py lines 65-112) for a
string ticker, together with the list of tickers for which
`self.dm.get_reference_data` was invoked.  The trailing whitespace-separated
token of the ticker is the security type; a type other than equity/comdty
(case-insensitive) raises
`TypeError(f'{str_type} is not currently implemented.')` before any
provider call.  `strptime` stands for `datetime.datetime.strptime(x, '%b %y')`
(external library); its month/year results are computed before the
`' COMB'` strip, exactly as in the source. -/
def get_option_fields (strptime : String → Except PyError (Nat × Nat))
    (provider : String → OptFieldsResp) (str_ticker : String) :
    Except PyError OptFieldsResult × List String :=
  match (pySplitWS str_ticker).getLast? with
  | none => (.error (.indexError "list index out of range"), [])
  | some str_type =>
    if pyLower str_type = "equity" then
      let resp := provider str_ticker
      (.ok ⟨pyStripComb resp.underlying_ticker, none, none⟩, [str_ticker])
    else if pyLower str_type = "comdty" then
      let resp := provider str_ticker
      match resp.cont_month_year with
      | none => (.ok ⟨pyStripComb resp.underlying_ticker, none, none⟩, [str_ticker])
      | some s =>
        match strptime s with
        | .error e => (.error e, [str_ticker])
        | .ok (mo, yr) => (.ok ⟨pyStripComb resp.underlying_ticker, some mo, some yr⟩, [str_ticker])
    else
      (.error (.typeError (str_type ++ " is not currently implemented.")), [])

/-- `BBG.get_general_field_single(str_ticker, str_field)` (lines 121-126):
the provider parameter stands for
`self.dm.get_reference_data(...).as_frame().iloc[0, 0]`, and the `' COMB'`
token is stripped exactly when the requested field lower-cases to
`underlying_security_des`. -/
def get_general_field_single (provider : String → String → String)
    (str_ticker str_field : String) : String :=
  let ret_val := provider str_ticker str_field
  if pyLower str_field = "underlying_security_des" then pyStripComb ret_val else ret_val

/-- C4.  For every ticker whose trailing whitespace-separated token
lower-cases to neither "equity" nor "comdty", `get_option_fields` fails
with the unsupported-security-type error (the `TypeError` raise on line 97,
which the spec calls `UnsupportedSecurityTypeError`) and the provider call
list is empty. -/
theorem get_option_fields_unsupported_type
    (strptime : String → Except PyError (Nat × Nat)) (provider : String → OptFieldsResp)
    (str_ticker str_type : String)
    (hlast : (pySplitWS str_ticker).getLast? = some str_type)
    (he : pyLower str_type ≠ "equity") (hc : pyLower str_type ≠ "comdty") :
    get_option_fields strptime provider str_ticker
      = (.error (.typeError (str_type ++ " is not currently implemented.")), []) := by
  unfold get_option_fields
  simp [hlast, he, hc]

/-- C4, witness: `"SPX Index"` has trailing token `"Index"`, which is
neither recognized type, so the lookup fails without a provider call. -/
theorem get_option_fields_unsupported_type_witness :
    get_option_fields (fun _ => .error (.valueError "")) (fun _ => ⟨"", none⟩) "SPX Index"
      = (.error (.typeError "Index is not currently implemented."), []) := by
  have h := get_option_fields_unsupported_type (fun _ => .error (.valueError ""))
    (fun _ => ⟨"", none⟩) "SPX Index" "Index" (by decide) (by decide) (by decide)
  simpa using h

/-- C7.  Whenever `get_option_fields` returns a result, its underlying
ticker is the provider's `underlying_security_des` string with every
`' COMB'` token stripped; `get_general_field_single` applied to field
`underlying_security_des` likewise returns the stripped provider value; and
concretely `"CLZ9 COMB Comdty"` strips to `"CLZ9 Comdty"`. -/
theorem underlying_comb_stripped
    (strptime : String → Except PyError (Nat × Nat)) (provider : String → OptFieldsResp)
    (provider2 : String → String → String) (str_ticker : String) (res : OptFieldsResult)
    (hok : (get_option_fields strptime provider str_ticker).1 = .ok res) :
    res.underlying_ticker = pyStripComb (provider str_ticker).underlying_ticker
      ∧ get_general_field_single provider2 str_ticker "underlying_security_des"
          = pyStripComb (provider2 str_ticker "underlying_security_des")
      ∧ pyStripComb "CLZ9 COMB Comdty" = "CLZ9 Comdty" := by
  refine ⟨?_, ?_, by decide⟩
  · unfold get_option_fields at hok
    cases hL : (pySplitWS str_ticker).getLast? with
    | none => rw [hL] at hok; simp at hok
    | some ty =>
      rw [hL] at hok
      by_cases he : pyLower ty = "equity"
      · simp +decide [he] at hok
        rw [← hok]
      · by_cases hc : pyLower ty = "comdty"
        · cases hm : (provider str_ticker).cont_month_year with
          | none =>
            simp +decide [he, hc, hm] at hok
            rw [← hok]
          | some s =>
            cases hst : strptime s with
            | error e => simp +decide [he, hc, hm, hst] at hok
            | ok my =>
              obtain ⟨mo, yr⟩ := my
              simp +decide [he, hc, hm, hst] at hok
              rw [← hok]
        · simp +decide [he, hc] at hok
  · unfold get_general_field_single
    rw [if_pos (by decide)]

/-- C7, witness: for a provider answering `"CLZ9 COMB Comdty"` on an equity
ticker, the returned underlying ticker is the stripped string
`"CLZ9 Comdty"`. -/
theorem underlying_comb_stripped_witness :
    (⟨"CLZ9 Comdty", none, none⟩ : OptFieldsResult).underlying_ticker
      = pyStripComb "CLZ9 COMB Comdty" := by
  have h := underlying_comb_stripped (fun _ => .error (.valueError ""))
    (fun _ => ⟨"CLZ9 COMB Comdty", none⟩) (fun _ _ => "") "XYZ Equity"
    ⟨"CLZ9 Comdty", none, none⟩ (by decide)
  exact h.1

/-! ## Memoization (claim C8) -/

/-- Result of one call through a memoized method: the returned value, the
cache afterwards, and whether the underlying provider-backed method body
ran. -/
structure LruOutcome (α β : Type) where
  value : β
  cache : List (α × β)
  providerCalled : Bool

/-- One call through `functools.lru_cache()` (default `maxsize=128`), the
decorator applied uniformly to the `BBG` facade methods (`get_futures_curve`,
`get_general_fields`, `get_ois`, ...).  The cache is the list of
argument-tuple/result pairs, most recently used first: a hit returns the
stored value, moves the entry to the front and does not run the method body;
a miss runs the body `f`, stores the result and drops entries beyond the
128 most recent.  `α` stands for the argument tuple of the method, `β` for
its result. -/
def lruCall {α β : Type} [DecidableEq α] (cache : List (α × β)) (f : α → β) (a : α) :
    LruOutcome α β :=
  match cache.find? (fun e => decide (e.1 = a)) with
  | some e => ⟨e.2, (a, e.2) :: cache.eraseP (fun e => decide (e.1 = a)), false⟩
  | none => ⟨f a, ((a, f a) :: cache).take 128, true⟩

/-- C8.  For every memoized method, starting cache and argument tuple, a
second call with the identical argument tuple returns exactly the value the
first call returned and does not run the method body again, even when the
provider-backed body changed to `g` (stale upstream data) between the calls:
no invalidation or expiry intervenes. -/
theorem lru_second_call_cached {α β : Type} [DecidableEq α]
    (cache : List (α × β)) (f g : α → β) (a : α) :
    (lruCall (lruCall cache f a).cache g a).value = (lruCall cache f a).value
      ∧ (lruCall (lruCall cache f a).cache g a).providerCalled = false := by
  cases h : cache.find? (fun e => decide (e.1 = a)) with
  | some e =>
    have hf : ((a, e.2) :: cache.eraseP (fun e => decide (e.1 = a))).find?
        (fun e => decide (e.1 = a)) = some (a, e.2) :=
      List.find?_cons_of_pos _ (by simp)
    simp [lruCall, h, hf]
  | none =>
    have ht : ((a, f a) :: cache).take 128 = (a, f a) :: cache.take 127 :=
      List.take_succ_cons
    have hf : ((a, f a) :: cache.take 127).find? (fun e => decide (e.1 = a))
        = some (a, f a) :=
      List.find?_cons_of_pos _ (by simp)
    simp [lruCall, h, ht, hf]

/-! ## `BBG.get_general_fields` (claim C9) -/

/-- The argument tuple passed to `self.dm.get_reference_data` by
`get_general_fields` (src/kt_bbg.py lines 114-119). -/
structure RefDataRequest where
  security : String
  fields : List String
  ignore_security_error : Int
  ignore_field_error : Int
  overrides : List (String × String)
deriving DecidableEq

/-- The request `BBG.get_general_fields` builds: both error flags are the
literals `0` at the call site, regardless of the method parameters of the
same names. -/
def get_general_fields_request (str_ticker : String) (str_fields : List String)
    (ignore_security_error ignore_field_error : Int)
    (overrides : List (String × String)) : RefDataRequest :=
  ⟨str_ticker, str_fields, 0, 0, overrides⟩

/-- `BBG.get_general_fields(...)`: a single pass-through of the built
request to the external provider. -/
def get_general_fields {γ : Type} (provider : RefDataRequest → γ)
    (str_ticker : String) (str_fields : List String)
    (ignore_security_error ignore_field_error : Int)
    (overrides : List (String × String)) : γ :=
  provider (get_general_fields_request str_ticker str_fields
    ignore_security_error ignore_field_error overrides)

/-- C9.  The `ignore_security_error` and `ignore_field_error` parameters
have no effect: every built provider request carries both flags as 0, two
requests differing only in those parameters are equal, and the provider
result is therefore identical whatever values the caller passed. -/
theorem ignore_error_flags_no_effect :
    (∀ (t : String) (fs : List String) (i1 i2 : Int) (ov : List (String × String)),
        (get_general_fields_request t fs i1 i2 ov).ignore_security_error = 0
          ∧ (get_general_fields_request t fs i1 i2 ov).ignore_field_error = 0)
      ∧ (∀ (t : String) (fs : List String) (i1 i2 j1 j2 : Int) (ov : List (String × String)),
          get_general_fields_request t fs i1 i2 ov = get_general_fields_request t fs j1 j2 ov)
      ∧ (∀ (γ : Type) (provider : RefDataRequest → γ) (t : String) (fs : List String)
            (i1 i2 j1 j2 : Int) (ov : List (String × String)),
          get_general_fields provider t fs i1 i2 ov = get_general_fields provider t fs j1 j2 ov) :=
  ⟨fun _ _ _ _ _ => ⟨rfl, rfl⟩, fun _ _ _ _ _ _ _ => rfl, fun _ _ _ _ _ _ _ _ _ => rfl⟩

/-! ## `insert_year_into_ticker` (claim C10) -/

/-- Python `str.isdigit()`: nonempty and all digits (ASCII inputs here). -/
def pyIsdigit (cs : List Char) : Bool := !cs.isEmpty && cs.all Char.isDigit

/-- Python `''.join(parts)`. -/
def pyJoin (l : List String) : String := String.mk (l.map String.data).flatten

/-- `insert_year_into_ticker(str_ticker, str_year)` (src/kt_bbg.py lines
221-234): split the ticker, require at least 3 parts, a digit run in second
position and a 4-character year, then prepend the year's third character
(`str_year[2]`) to that digit run and re-join.  Each failed check raises
`IOError`.  (`str(str_year)` on line 222 is the identity on the string
inputs modelled here.) -/
def insert_year_into_ticker (str_ticker str_year : String) : Except PyError String :=
  if (split_letters_numbers str_ticker).length < 3 then
    .error (.ioError "the ticker passed in needs to conform to bbg standards.")
  else if !pyIsdigit ((split_letters_numbers str_ticker).getD 1 "").data then
    .error (.ioError "cannot find year indicator in the ticker.")
  else if str_year.length ≠ 4 then
    .error (.ioError "year must be a four digit input")
  else
    .ok (pyJoin ((split_letters_numbers str_ticker).set 1
      (String.mk (str_year.data.getD 2 ' '
        :: ((split_letters_numbers str_ticker).getD 1 "").data))))

/-- C10.  When the ticker splits into at least three parts with a digit run
in second position and the year string has length 4,
`insert_year_into_ticker` returns the re-joined parts with the year's third
character prepended to the digit run; when the split has fewer than three
parts, or the second part is not a digit run, or the year length is not 4,
it raises `IOError`. -/
theorem insert_year_into_ticker_spec (str_ticker str_year : String) :
    ((3 ≤ (split_letters_numbers str_ticker).length
        ∧ pyIsdigit ((split_letters_numbers str_ticker).getD 1 "").data = true
        ∧ str_year.length = 4) →
      insert_year_into_ticker str_ticker str_year
        = .ok (pyJoin ((split_letters_numbers str_ticker).set 1
            (String.mk (str_year.data.getD 2 ' '
              :: ((split_letters_numbers str_ticker).getD 1 "").data)))))
    ∧ (((split_letters_numbers str_ticker).length < 3
          ∨ pyIsdigit ((split_letters_numbers str_ticker).getD 1 "").data = false
          ∨ str_year.length ≠ 4) →
        ∃ msg, insert_year_into_ticker str_ticker str_year = .error (.ioError msg)) := by
  unfold insert_year_into_ticker
  constructor
  · rintro ⟨h3, hd, hy⟩
    split_ifs with c1 c2 c3
    · exact absurd c1 (by omega)
    · rw [hd] at c2
      exact absurd c2 (by decide)
    · exact absurd hy c3
    · rfl
  · intro h
    split_ifs with c1 c2 c3
    · exact ⟨_, rfl⟩
    · exact ⟨_, rfl⟩
    · exact ⟨_, rfl⟩
    · exfalso
      rcases h with h | h | h
      · exact c1 h
      · exact c2 (by rw [h]; decide)
      · exact c3 h

/-- C10, witness: ticker `"CLZ9 Comdty"` with year `"2019"` yields
`"CLZ19 Comdty"`. -/
theorem insert_year_into_ticker_spec_witness :
    insert_year_into_ticker "CLZ9 Comdty" "2019" = .ok "CLZ19 Comdty" := by
  have h := (insert_year_into_ticker_spec "CLZ9 Comdty" "2019").1
    ⟨by decide, by decide, by decide⟩
  rw [h]
  decide
